import Mathlib

/-!
Verification of the suraj_thermal_printer core: the ESC/POS document encoder
(`encodeEscPos` in src/App.tsx, lines 25-61) and the chunked Bluetooth write
transport (`handleBluetoothPrint` in src/App.tsx, lines 124-158).

Bytes are modelled as `Nat` (every value emitted by the source is in 0..255:
fixed opcode literals and UTF-8 code units). The encoder builds a list of
byte chunks and concatenates them, exactly as the source pushes `Uint8Array`
fragments into `chunks` and then copies them into one result array.
-/

namespace SurajPrinter

/-- The fontSize union type of PrinterConfig in src/types.ts. -/
inductive FontSize
  | sm
  | base
  | lg
  | xl
deriving DecidableEq

/-- The textAlign union type of PrinterConfig in src/types.ts. -/
inductive TextAlign
  | left
  | center
  | right
deriving DecidableEq

/-- PrinterConfig from src/types.ts, together with the two additional fields
(useBluetooth, linkedPrinterName) present on the config state object in
src/App.tsx lines 66-76. `headerImage` is `string | null`, modelled as
`Option String`; `linkedPrinterName` is `string | null` likewise. -/
structure PrinterConfig where
  headerText : String
  headerImage : Option String
  headerImageName : String
  content : String
  fontSize : FontSize
  textAlign : TextAlign
  bold : Bool
  useBluetooth : Bool
  linkedPrinterName : Option String
deriving DecidableEq

/-- Models `new TextEncoder().encode(s)`: the UTF-8 code units of the string,
as natural numbers. -/
def utf8Bytes (s : String) : List Nat :=
  s.data.flatMap fun c => (String.utf8EncodeChar c).map (fun b => b.toNat)

/-- Models `s.toUpperCase()` from src/App.tsx line 35. `Char.toUpper` maps the
ASCII letters a-z to A-Z and leaves other characters unchanged, which agrees
with the JavaScript method on the ASCII range. -/
def jsToUpperCase (s : String) : String :=
  String.mk (s.data.map Char.toUpper)

/-- The alignMap object literal from src/App.tsx line 40:
`{ left: 0, center: 1, right: 2 }`. -/
def alignMap : TextAlign → Nat
  | .left => 0
  | .center => 1
  | .right => 2

/-- The sizeMap object literal from src/App.tsx line 42:
`{ sm: 0x00, base: 0x00, lg: 0x11, xl: 0x22 }`. -/
def sizeMap : FontSize → Nat
  | .sm => 0x00
  | .base => 0x00
  | .lg => 0x11
  | .xl => 0x22

/-- The fixed footer branding string from src/App.tsx line 49. -/
def footerText : String := "\n--- Developed by ---\nMubasshir Husain\n\n\n\n"

/-- The list of byte fragments pushed into `chunks` by encodeEscPos
(src/App.tsx lines 25-51), in push order. The JavaScript guard
`if (config.headerText)` is string truthiness: the header block is pushed
exactly when headerText is non-empty. -/
def escChunks (config : PrinterConfig) : List (List Nat) :=
  [[0x1B, 0x40]]
    ++ (if config.headerText = "" then []
        else
          [[0x1B, 0x61, 1],
           [0x1B, 0x45, 0x01],
           utf8Bytes (jsToUpperCase config.headerText ++ "\n\n"),
           [0x1B, 0x45, 0x00]])
    ++ [[0x1B, 0x61, alignMap config.textAlign],
        [0x1D, 0x21, sizeMap config.fontSize],
        utf8Bytes (config.content ++ "\n\n"),
        [0x1B, 0x61, 1],
        [0x1D, 0x21, 0x00],
        utf8Bytes footerText,
        [0x1D, 0x56, 0x00]]

/-- encodeEscPos from src/App.tsx lines 25-61: the concatenation of all the
pushed fragments (the source copies each chunk into one Uint8Array at
increasing offsets, which is exactly list flattening). -/
def encodeEscPos (config : PrinterConfig) : List Nat :=
  (escChunks config).flatten

/-- The header block bytes pushed when headerText is non-empty
(src/App.tsx lines 32-37): center, bold on, upper-cased header text plus two
newlines, bold off. It is a function of the header text alone — it never
reads textAlign or bold from the config. -/
def headerBlockBytes (headerText : String) : List Nat :=
  [0x1B, 0x61, 1] ++ [0x1B, 0x45, 0x01]
    ++ utf8Bytes (jsToUpperCase headerText ++ "\n\n")
    ++ [0x1B, 0x45, 0x00]

/-- Everything encodeEscPos emits after the reset bytes and the (possibly
absent) header block: body alignment, body size, body text with two
newlines, footer centering, footer size reset, footer text, cut command
(src/App.tsx lines 40-51). -/
def bodyFooterBytes (config : PrinterConfig) : List Nat :=
  [0x1B, 0x61, alignMap config.textAlign]
    ++ [0x1D, 0x21, sizeMap config.fontSize]
    ++ utf8Bytes (config.content ++ "\n\n")
    ++ [0x1B, 0x61, 1]
    ++ [0x1D, 0x21, 0x00]
    ++ utf8Bytes footerText
    ++ [0x1D, 0x56, 0x00]

/-- Structural decomposition of the encoder output: reset bytes, then the
header block exactly when headerText is non-empty, then body and footer. -/
theorem encodeEscPos_decomp (c : PrinterConfig) :
    encodeEscPos c =
      [0x1B, 0x40]
        ++ (if c.headerText = "" then [] else headerBlockBytes c.headerText)
        ++ bodyFooterBytes c := by
  by_cases h : c.headerText = "" <;>
    simp [encodeEscPos, escChunks, headerBlockBytes, bodyFooterBytes, h]

/-- The config of the end-to-end example in the specification. Fields not
fixed by the example are the App defaults. -/
def exampleConfig : PrinterConfig :=
  { headerText := "SHOP"
    headerImage := none
    headerImageName := ""
    content := "Hello\nWorld"
    fontSize := .base
    textAlign := .center
    bold := false
    useBluetooth := false
    linkedPrinterName := none }

/-- A config with empty content, used to witness the empty-content claim.
All other fields are those of the example config. -/
def emptyContentConfig : PrinterConfig :=
  { exampleConfig with content := "" }

set_option maxRecDepth 100000 in
/-- C1: for the example config {headerText SHOP, content Hello-newline-World,
textAlign center, fontSize base, headerImage none, bold false}, encodeEscPos
returns exactly the concatenation of: reset (0x1B 0x40), center-align opcode,
bold on, the UTF-8 bytes of the upper-cased header plus two newlines, bold
off, center-align opcode, normal-size opcode, the bytes of the body plus two
newlines, center-align opcode, normal-size opcode, the fixed closing footer
banner with its trailing newlines, and the cut command (0x1D 0x56 0x00). -/
theorem c1_example_exact_bytes :
    encodeEscPos exampleConfig =
      [0x1B, 0x40]
        ++ [0x1B, 0x61, 1]
        ++ [0x1B, 0x45, 0x01]
        ++ [83, 72, 79, 80, 10, 10]
        ++ [0x1B, 0x45, 0x00]
        ++ [0x1B, 0x61, 1]
        ++ [0x1D, 0x21, 0x00]
        ++ [72, 101, 108, 108, 111, 10, 87, 111, 114, 108, 100, 10, 10]
        ++ [0x1B, 0x61, 1]
        ++ [0x1D, 0x21, 0x00]
        ++ [10, 45, 45, 45, 32, 68, 101, 118, 101, 108, 111, 112, 101, 100,
            32, 98, 121, 32, 45, 45, 45, 10, 77, 117, 98, 97, 115, 115, 104,
            105, 114, 32, 72, 117, 115, 97, 105, 110, 10, 10, 10, 10]
        ++ [0x1D, 0x56, 0x00] := by
  decide

set_option maxRecDepth 1000000 in
/-- C3 counterexample: the claim says the alignment opcode sequence appears
immediately before the body content bytes, but at the example config the
three bytes directly preceding the body are the size command 0x1D 0x21 0x00,
so the alignment opcode followed directly by the body bytes occurs nowhere in
the output. -/
theorem c3_align_not_adjacent_to_body :
    ¬ List.IsInfix
        ([0x1B, 0x61, alignMap exampleConfig.textAlign]
          ++ utf8Bytes (exampleConfig.content ++ "\n\n"))
        (encodeEscPos exampleConfig) := by
  decide

/-- C3 amended: for every config, the alignment opcode sequence ESC 0x61 n,
with n = 0, 1, 2 for left, center, right, appears immediately before the
character-size command, which is immediately before the body content bytes. -/
theorem c3_align_before_size_before_body (c : PrinterConfig) :
    (alignMap .left = 0 ∧ alignMap .center = 1 ∧ alignMap .right = 2)
    ∧ ∃ p, encodeEscPos c =
        p ++ [0x1B, 0x61, alignMap c.textAlign]
          ++ [0x1D, 0x21, sizeMap c.fontSize]
          ++ utf8Bytes (c.content ++ "\n\n")
          ++ ([0x1B, 0x61, 1] ++ [0x1D, 0x21, 0x00]
              ++ utf8Bytes footerText ++ [0x1D, 0x56, 0x00]) := by
  refine ⟨⟨rfl, rfl, rfl⟩,
    ⟨[0x1B, 0x40] ++ (if c.headerText = "" then [] else headerBlockBytes c.headerText), ?_⟩⟩
  rw [encodeEscPos_decomp]
  simp [bodyFooterBytes]

/-- C4: for every config, the output is the reset bytes followed by the
header block exactly when headerText is non-empty (center opcode, bold on,
upper-cased header text with exactly two newlines, bold off) and by nothing
when headerText is empty; the header block is a function of the header text
alone, so it is the same bytes regardless of the textAlign and bold fields. -/
theorem c4_header_block (c : PrinterConfig) :
    (encodeEscPos c =
      [0x1B, 0x40]
        ++ (if c.headerText = "" then []
            else [0x1B, 0x61, 1] ++ [0x1B, 0x45, 0x01]
              ++ utf8Bytes (jsToUpperCase c.headerText ++ "\n\n")
              ++ [0x1B, 0x45, 0x00])
        ++ bodyFooterBytes c)
    ∧ ∀ ta b, encodeEscPos { c with textAlign := ta, bold := b } =
        [0x1B, 0x40]
          ++ (if c.headerText = "" then [] else headerBlockBytes c.headerText)
          ++ bodyFooterBytes { c with textAlign := ta, bold := b } := by
  constructor
  · rw [encodeEscPos_decomp]
    by_cases h : c.headerText = "" <;> simp [headerBlockBytes, h]
  · intro ta b
    rw [encodeEscPos_decomp]

/-- C5: for every config, the character-size command emitted before the body
is GS 0x21 with argument sizeMap fontSize, where sm and base map to 0x00
(normal), lg maps to 0x11 (double height and width) and xl maps to 0x22
(quadruple scale). -/
theorem c5_size_command (c : PrinterConfig) :
    (sizeMap .sm = 0x00 ∧ sizeMap .base = 0x00
      ∧ sizeMap .lg = 0x11 ∧ sizeMap .xl = 0x22)
    ∧ ∃ p, encodeEscPos c =
        p ++ [0x1D, 0x21, sizeMap c.fontSize]
          ++ utf8Bytes (c.content ++ "\n\n")
          ++ ([0x1B, 0x61, 1] ++ [0x1D, 0x21, 0x00]
              ++ utf8Bytes footerText ++ [0x1D, 0x56, 0x00]) := by
  refine ⟨⟨rfl, rfl, rfl, rfl⟩,
    ⟨[0x1B, 0x40] ++ (if c.headerText = "" then [] else headerBlockBytes c.headerText)
      ++ [0x1B, 0x61, alignMap c.textAlign], ?_⟩⟩
  rw [encodeEscPos_decomp]
  simp [bodyFooterBytes]

/-- C7: encodeEscPos is total — it is a plain function on all of
PrinterConfig and always returns a non-empty byte sequence — and for a
config with empty content the output still contains the two trailing
newlines directly after the size opcode, followed by the full footer and the
cut command. -/
theorem c7_total_and_empty_content (c : PrinterConfig) :
    0 < (encodeEscPos c).length
    ∧ (c.content = "" →
        ∃ p, encodeEscPos c =
          p ++ [0x1D, 0x21, sizeMap c.fontSize] ++ [0x0A, 0x0A]
            ++ ([0x1B, 0x61, 1] ++ [0x1D, 0x21, 0x00]
                ++ utf8Bytes footerText ++ [0x1D, 0x56, 0x00])) := by
  constructor
  · rw [encodeEscPos_decomp]
    simp
  · intro h
    refine ⟨[0x1B, 0x40]
      ++ (if c.headerText = "" then [] else headerBlockBytes c.headerText)
      ++ [0x1B, 0x61, alignMap c.textAlign], ?_⟩
    have hb : utf8Bytes (c.content ++ "\n\n") = [0x0A, 0x0A] := by
      rw [h]; decide
    rw [encodeEscPos_decomp]
    simp [bodyFooterBytes, hb]

/-- Witness for C7 at the concrete empty-content config. -/
theorem c7_total_and_empty_content_witness :
    0 < (encodeEscPos emptyContentConfig).length
    ∧ ∃ p, encodeEscPos emptyContentConfig =
        p ++ [0x1D, 0x21, sizeMap emptyContentConfig.fontSize] ++ [0x0A, 0x0A]
          ++ ([0x1B, 0x61, 1] ++ [0x1D, 0x21, 0x00]
              ++ utf8Bytes footerText ++ [0x1D, 0x56, 0x00]) :=
  ⟨(c7_total_and_empty_content emptyContentConfig).1,
   (c7_total_and_empty_content emptyContentConfig).2 rfl⟩

/-- C8: the encoder output does not depend on the bold field — overwriting
bold with any value yields byte-identical output, so any two configs that
differ only in bold encode identically. -/
theorem c8_bold_ignored (c : PrinterConfig) (b : Bool) :
    encodeEscPos { c with bold := b } = encodeEscPos c := by
  simp [encodeEscPos, escChunks]

/-! ## The Bluetooth transport (handleBluetoothPrint, src/App.tsx 124-158) -/

/-- The chunkSize constant from src/App.tsx line 147. -/
def chunkSize : Nat := 20

/-- The write loop of handleBluetoothPrint (src/App.tsx lines 148-150):
for (let i = 0; i < data.length; i += chunkSize)
  await characteristic.writeValue(data.slice(i, i + chunkSize)).
Each writeValue call is awaited, so the calls are strictly sequential; the
oracle `fails k` models the k-th writeValue call throwing, which aborts the
loop (the exception propagates to the surrounding catch). The result is the
list of chunks passed to writeValue, in call order, and true exactly when
the loop ran to completion without a throw. data.slice(i, i + chunkSize) is
(data.drop i).take chunkSize. -/
def writeLoop (fails : Nat → Bool) (data : List Nat) (i k : Nat) :
    List (List Nat) × Bool :=
  if i < data.length then
    let chunk := (data.drop i).take chunkSize
    if fails k then ([chunk], false)
    else
      let r := writeLoop fails data (i + chunkSize) (k + 1)
      (chunk :: r.1, r.2)
  else ([], true)
termination_by data.length - i
decreasing_by simp [chunkSize]; omega

/-- Step equation of writeLoop while the loop guard i < data.length holds. -/
theorem writeLoop_pos (fails : Nat → Bool) (data : List Nat) (i k : Nat)
    (h : i < data.length) :
    writeLoop fails data i k =
      if fails k then ([(data.drop i).take chunkSize], false)
      else
        ((data.drop i).take chunkSize :: (writeLoop fails data (i + chunkSize) (k + 1)).1,
          (writeLoop fails data (i + chunkSize) (k + 1)).2) := by
  rw [writeLoop]
  simp [h]

/-- Exit equation of writeLoop once the loop guard fails. -/
theorem writeLoop_neg (fails : Nat → Bool) (data : List Nat) (i k : Nat)
    (h : ¬ i < data.length) :
    writeLoop fails data i k = ([], true) := by
  rw [writeLoop]
  simp [h]

/-- On a run with no write failures, from any loop offset: the chunks
concatenate to the remaining payload, there are ceiling((length - i) / 20)
of them, and the loop completes successfully. Stated with an explicit fuel
bound for induction. -/
theorem writeLoop_noFail_spec (data : List Nat) :
    ∀ n i k, data.length - i ≤ n →
      ((writeLoop (fun _ => false) data i k).1.flatten = data.drop i
        ∧ (writeLoop (fun _ => false) data i k).1.length
            = (data.length - i + 19) / 20
        ∧ (writeLoop (fun _ => false) data i k).2 = true) := by
  intro n
  induction n with
  | zero =>
    intro i k hle
    have h : ¬ i < data.length := by omega
    have hlen : data.length ≤ i := by omega
    rw [writeLoop_neg _ _ _ _ h]
    refine ⟨by simp [List.drop_eq_nil_of_le hlen], ?_, rfl⟩
    have h0 : data.length - i = 0 := by omega
    simp [h0]
  | succ n ih =>
    intro i k hle
    by_cases h : i < data.length
    · rw [writeLoop_pos _ _ _ _ h]
      simp only [Bool.false_eq_true, if_false]
      obtain ⟨ih1, ih2, ih3⟩ := ih (i + chunkSize) (k + 1)
        (by have h20 : chunkSize = 20 := rfl; omega)
      refine ⟨?_, ?_, ih3⟩
      · have hdd : data.drop (i + chunkSize) = (data.drop i).drop chunkSize := by
          rw [List.drop_drop]
        simp only [List.flatten_cons, ih1, hdd, List.take_append_drop]
      · simp only [List.length_cons, ih2]
        have h20 : chunkSize = 20 := rfl
        rw [h20]
        omega
    · rw [writeLoop_neg _ _ _ _ h]
      have hlen : data.length ≤ i := by omega
      refine ⟨by simp [List.drop_eq_nil_of_le hlen], ?_, rfl⟩
      have h0 : data.length - i = 0 := by omega
      simp [h0]

/-- Every chunk the loop passes to writeValue has at most chunkSize bytes,
also on failing runs. Stated with an explicit fuel bound for induction. -/
theorem writeLoop_chunks_le (fails : Nat → Bool) (data : List Nat) :
    ∀ n i k, data.length - i ≤ n →
      ∀ c ∈ (writeLoop fails data i k).1, c.length ≤ chunkSize := by
  intro n
  induction n with
  | zero =>
    intro i k hle c hc
    rw [writeLoop_neg _ _ _ _ (by omega)] at hc
    simp at hc
  | succ n ih =>
    intro i k hle c hc
    by_cases h : i < data.length
    · rw [writeLoop_pos _ _ _ _ h] at hc
      by_cases hf : fails k
      · simp [hf] at hc
        simp [hc, List.length_take]
      · simp only [hf, Bool.false_eq_true, if_false, List.mem_cons] at hc
        rcases hc with rfl | hc
        · simp [List.length_take]
        · exact ih (i + chunkSize) (k + 1) (by simp [chunkSize]; omega) c hc
    · rw [writeLoop_neg _ _ _ _ h] at hc
      simp at hc

/-- If the first m writeValue calls (counting from loop counter k) succeed,
the next one throws, and its chunk exists, then the loop attempts exactly
the m + 1 chunks a failure-free run would attempt first, and ends in the
thrown state. -/
theorem writeLoop_fail_spec (fails : Nat → Bool) (data : List Nat) :
    ∀ m i k, (∀ j, j < m → fails (k + j) = false) → fails (k + m) = true →
      i + m * chunkSize < data.length →
      ((writeLoop fails data i k).1
          = (writeLoop (fun _ => false) data i k).1.take (m + 1)
        ∧ (writeLoop fails data i k).1.length = m + 1
        ∧ (writeLoop fails data i k).2 = false) := by
  intro m
  induction m with
  | zero =>
    intro i k hprev hfail hlt
    have h : i < data.length := by omega
    have hk : fails k = true := by simpa using hfail
    rw [writeLoop_pos fails _ _ _ h, writeLoop_pos (fun _ => false) _ _ _ h]
    simp [hk]
  | succ m ih =>
    intro i k hprev hfail hlt
    have h : i < data.length := by simp [chunkSize] at hlt; omega
    have hk : fails k = false := by simpa using hprev 0 (by omega)
    have hlt2 : (i + chunkSize) + m * chunkSize < data.length := by
      simp [chunkSize] at hlt ⊢
      omega
    have hprev2 : ∀ j, j < m → fails ((k + 1) + j) = false := by
      intro j hj
      have he : k + 1 + j = k + (j + 1) := by omega
      rw [he]
      exact hprev (j + 1) (by omega)
    have hfail2 : fails ((k + 1) + m) = true := by
      have he : k + 1 + m = k + (m + 1) := by omega
      rw [he]
      exact hfail
    obtain ⟨e1, e2, e3⟩ := ih (i + chunkSize) (k + 1) hprev2 hfail2 hlt2
    rw [writeLoop_pos fails _ _ _ h, writeLoop_pos (fun _ => false) _ _ _ h]
    simp only [hk, Bool.false_eq_true, if_false, List.take_succ_cons]
    exact ⟨by rw [e1], by simp [e2], e3⟩

/-- Models the JavaScript truthiness test !config.linkedPrinterName in
src/App.tsx line 125: null and the empty string are falsy. -/
def isFalsyName : Option String → Bool
  | none => true
  | some s => s.isEmpty

/-- The environment a single Bluetooth print attempt runs in: whether an
in-memory device handle exists (btDevice), whether the name-filtered
requestDevice call would succeed, whether gatt connect, getPrimaryService
and getCharacteristic would succeed, and which writeValue calls would
throw. -/
structure BtEnv where
  haveDevice : Bool
  reacquireOk : Bool
  connectOk : Bool
  serviceOk : Bool
  charOk : Bool
  writeFails : Nat → Bool

/-- The user-visible terminations of handleBluetoothPrint: the early return
into linkBluetooth (src/App.tsx lines 125-128), the success alert
(line 151), or the catch branch (lines 152-155). -/
inductive PrintOutcome
  | linkFlow
  | sent
  | offline
deriving DecidableEq

/-- The alert text each outcome shows, from src/App.tsx lines 151 and 153;
the early-return path shows no alert of its own. -/
def alertMessage : PrintOutcome → Option String
  | .linkFlow => none
  | .sent => some "Print sent!"
  | .offline => some "Printer offline or out of range. Please re-link."

/-- The observable result of one handleBluetoothPrint call: the outcome,
the chunks passed to writeValue in call order, and the config state after
the call. -/
structure PrintRun where
  outcome : PrintOutcome
  attempted : List (List Nat)
  config : PrinterConfig
deriving DecidableEq

/-- handleBluetoothPrint from src/App.tsx lines 124-158. If the stored
printer name is falsy, it calls linkBluetooth and returns at once. Otherwise
the try block acquires a device (the in-memory handle, or requestDevice
filtered by the stored name), connects, resolves service and characteristic,
encodes the config and runs the chunked write loop; any throw lands in the
catch, which alerts the offline message and clears useBluetooth on the
config, changing nothing else. -/
def handleBluetoothPrint (env : BtEnv) (config : PrinterConfig) : PrintRun :=
  if isFalsyName config.linkedPrinterName then
    { outcome := .linkFlow, attempted := [], config := config }
  else if !env.haveDevice && !env.reacquireOk then
    { outcome := .offline, attempted := [],
      config := { config with useBluetooth := false } }
  else if !env.connectOk then
    { outcome := .offline, attempted := [],
      config := { config with useBluetooth := false } }
  else if !env.serviceOk then
    { outcome := .offline, attempted := [],
      config := { config with useBluetooth := false } }
  else if !env.charOk then
    { outcome := .offline, attempted := [],
      config := { config with useBluetooth := false } }
  else
    let data := encodeEscPos config
    let r := writeLoop env.writeFails data 0 0
    if r.2 then { outcome := .sent, attempted := r.1, config := config }
    else
      { outcome := .offline, attempted := r.1,
        config := { config with useBluetooth := false } }

/-- True exactly when some stage of the attempt from device acquisition
through the chunked writes fails (the disjunction of everything the try
block of src/App.tsx lines 131-151 can throw on, in our model). -/
def printAttemptFails (env : BtEnv) (data : List Nat) : Bool :=
  (!env.haveDevice && !env.reacquireOk) || !env.connectOk || !env.serviceOk
    || !env.charOk || !(writeLoop env.writeFails data 0 0).2

/-- C2: for every payload with N greater than 0, a failure-free run of the
Bluetooth write loop issues exactly ceiling(N/20) writeValue calls — that
is, (N + 19) / 20 — each chunk carries at most 20 bytes, the chunks
concatenated in call order reproduce the payload byte for byte, and the
loop completes. The calls are sequential by construction: each recursive
step models one awaited writeValue completing before the next is issued. -/
theorem c2_chunking (data : List Nat) (h : 0 < data.length) :
    (writeLoop (fun _ => false) data 0 0).1.length = (data.length + 19) / 20
    ∧ (∀ c ∈ (writeLoop (fun _ => false) data 0 0).1, c.length ≤ 20)
    ∧ (writeLoop (fun _ => false) data 0 0).1.flatten = data
    ∧ (writeLoop (fun _ => false) data 0 0).2 = true := by
  obtain ⟨h1, h2, h3⟩ := writeLoop_noFail_spec data data.length 0 0 (by omega)
  refine ⟨by simpa using h2, ?_, by simpa using h1, h3⟩
  intro c hc
  exact writeLoop_chunks_le (fun _ => false) data data.length 0 0 (by omega) c hc

/-- Witness for C2 at the encoded example config (87 bytes, 5 chunks). -/
theorem c2_chunking_witness :
    0 < (encodeEscPos exampleConfig).length
    ∧ ((writeLoop (fun _ => false) (encodeEscPos exampleConfig) 0 0).1.length
          = ((encodeEscPos exampleConfig).length + 19) / 20
        ∧ (∀ c ∈ (writeLoop (fun _ => false) (encodeEscPos exampleConfig) 0 0).1,
            c.length ≤ 20)
        ∧ (writeLoop (fun _ => false) (encodeEscPos exampleConfig) 0 0).1.flatten
            = encodeEscPos exampleConfig
        ∧ (writeLoop (fun _ => false) (encodeEscPos exampleConfig) 0 0).2 = true) :=
  ⟨by decide, c2_chunking (encodeEscPos exampleConfig) (by decide)⟩

/-- A config linked to a named printer, as left behind by a successful
pairing in linkBluetooth. -/
def btConfig : PrinterConfig :=
  { exampleConfig with useBluetooth := true, linkedPrinterName := some "PT-210" }

/-- An environment with a live device handle and healthy connection stages
whose every writeValue call throws. -/
def failEnv : BtEnv :=
  { haveDevice := true, reacquireOk := true, connectOk := true,
    serviceOk := true, charOk := true, writeFails := fun _ => true }

/-- An environment where the gatt connect stage fails. -/
def noConnectEnv : BtEnv :=
  { haveDevice := true, reacquireOk := true, connectOk := false,
    serviceOk := true, charOk := true, writeFails := fun _ => false }

/-- C6: if the k-th writeValue call throws (all earlier ones succeeded and
chunk k exists), then the print attempt passes exactly chunks 0 through k to
writeValue — the k + 1 first chunks a failure-free run would send, so no
chunk after index k is attempted — and the attempt ends in the offline
failure outcome, not the success outcome. -/
theorem c6_write_failure_isolation (env : BtEnv) (config : PrinterConfig)
    (k : Nat)
    (hname : isFalsyName config.linkedPrinterName = false)
    (hdev : env.haveDevice = true) (hcon : env.connectOk = true)
    (hsvc : env.serviceOk = true) (hchr : env.charOk = true)
    (hk : k * chunkSize < (encodeEscPos config).length)
    (hfail : env.writeFails k = true)
    (hbefore : ∀ j, j < k → env.writeFails j = false) :
    (handleBluetoothPrint env config).attempted.length = k + 1
    ∧ (handleBluetoothPrint env config).attempted
        = (writeLoop (fun _ => false) (encodeEscPos config) 0 0).1.take (k + 1)
    ∧ (handleBluetoothPrint env config).outcome = PrintOutcome.offline := by
  obtain ⟨e1, e2, e3⟩ := writeLoop_fail_spec env.writeFails (encodeEscPos config)
    k 0 0 (by intro j hj; simpa using hbefore j hj) (by simpa using hfail)
    (by omega)
  refine ⟨?_, ?_, ?_⟩
  · simp [handleBluetoothPrint, hname, hdev, hcon, hsvc, hchr, e3, e2]
  · simp [handleBluetoothPrint, hname, hdev, hcon, hsvc, hchr, e3, e1]
  · simp [handleBluetoothPrint, hname, hdev, hcon, hsvc, hchr, e3]

/-- Witness for C6: every write throws, so only chunk 0 is attempted and the
attempt fails. -/
theorem c6_write_failure_isolation_witness :
    (handleBluetoothPrint failEnv btConfig).attempted.length = 0 + 1
    ∧ (handleBluetoothPrint failEnv btConfig).attempted
        = (writeLoop (fun _ => false) (encodeEscPos btConfig) 0 0).1.take (0 + 1)
    ∧ (handleBluetoothPrint failEnv btConfig).outcome = PrintOutcome.offline :=
  c6_write_failure_isolation failEnv btConfig 0 (by decide) rfl rfl rfl rfl
    (by decide) rfl (fun j hj => absurd hj (by omega))

/-- C9: whenever any stage of a Bluetooth print attempt fails — device
acquisition, connect, service or characteristic resolution, or any chunk
write — the handler reports the user-facing printer-offline alert and the
resulting config is the input config with useBluetooth set to false and
every other field unchanged. -/
theorem c9_failure_clears_bluetooth (env : BtEnv) (config : PrinterConfig)
    (hname : isFalsyName config.linkedPrinterName = false)
    (herr : printAttemptFails env (encodeEscPos config) = true) :
    (handleBluetoothPrint env config).outcome = PrintOutcome.offline
    ∧ alertMessage (handleBluetoothPrint env config).outcome
        = some "Printer offline or out of range. Please re-link."
    ∧ (handleBluetoothPrint env config).config
        = { config with useBluetooth := false } := by
  have hout : (handleBluetoothPrint env config).outcome = PrintOutcome.offline
      ∧ (handleBluetoothPrint env config).config
          = { config with useBluetooth := false } := by
    cases hD : env.haveDevice <;> cases hR : env.reacquireOk <;>
      cases hC : env.connectOk <;> cases hS : env.serviceOk <;>
      cases hH : env.charOk <;>
      cases hW : (writeLoop env.writeFails (encodeEscPos config) 0 0).2 <;>
      simp_all [handleBluetoothPrint, printAttemptFails, hname]
  exact ⟨hout.1, by rw [hout.1]; rfl, hout.2⟩

/-- Witness for C9: the connect stage fails, the offline alert is shown and
useBluetooth is cleared. -/
theorem c9_failure_clears_bluetooth_witness :
    isFalsyName btConfig.linkedPrinterName = false
    ∧ printAttemptFails noConnectEnv (encodeEscPos btConfig) = true
    ∧ ((handleBluetoothPrint noConnectEnv btConfig).outcome = PrintOutcome.offline
      ∧ alertMessage (handleBluetoothPrint noConnectEnv btConfig).outcome
          = some "Printer offline or out of range. Please re-link."
      ∧ (handleBluetoothPrint noConnectEnv btConfig).config
          = { btConfig with useBluetooth := false }) :=
  ⟨by decide, by simp [printAttemptFails, noConnectEnv],
   c9_failure_clears_bluetooth noConnectEnv btConfig (by decide)
     (by simp [printAttemptFails, noConnectEnv])⟩

/-- C10: when linkedPrinterName is null, handleBluetoothPrint starts the
linking flow and returns immediately: no stage of the transport runs, no
chunk is passed to writeValue, the config (its content included) is
untouched, and hence the encoded output of the resulting config is
unchanged. -/
theorem c10_no_link_no_write (env : BtEnv) (config : PrinterConfig)
    (h : config.linkedPrinterName = none) :
    handleBluetoothPrint env config =
      { outcome := PrintOutcome.linkFlow, attempted := [], config := config }
    ∧ encodeEscPos (handleBluetoothPrint env config).config
        = encodeEscPos config := by
  have ht : isFalsyName config.linkedPrinterName = true := by rw [h]; rfl
  refine ⟨?_, ?_⟩ <;> simp [handleBluetoothPrint, ht]

/-- Witness for C10 at the example config, whose linkedPrinterName is null. -/
theorem c10_no_link_no_write_witness :
    handleBluetoothPrint failEnv exampleConfig =
      { outcome := PrintOutcome.linkFlow, attempted := [],
        config := exampleConfig }
    ∧ encodeEscPos (handleBluetoothPrint failEnv exampleConfig).config
        = encodeEscPos exampleConfig :=
  c10_no_link_no_write failEnv exampleConfig rfl

end SurajPrinter
